import Mathlib

/-!
Shallow embedding of the quantitative risk-and-simulation engine
(risk_engine_rust, risk_engine_rust_gpu, backtester_rust) and proofs about it.

Modelling conventions:
* `f64` values are modelled by exact rationals (`ℚ`); all properties proved
  here are sign/comparison/selection facts that the formulas decide in exact
  arithmetic.  Where IEEE-754 produces a NaN on the actual code path
  (`0.0/0.0` for an empty backtest return series) the embedding makes that
  case explicit with an `Option ℚ` (`none` = NaN), since `ℚ` has no NaN.
* `usize` counts are `ℕ`.  The Rust `as usize` cast of a nonnegative `f64`
  truncates toward zero (= `Nat.floor`); a negative argument saturates to 0,
  which `Nat.floor : ℚ → ℕ` also yields.
* The pseudo-random machinery (`StdRng`, `rand_distr::Normal`) is abstracted
  as an explicit stream of draws: the deterministic skeleton of each function
  is embedded exactly, and the stream of simulated samples is a parameter.
* Timestamps (wall-clock strings) are passed in as an explicit `now` argument.
-/

namespace RiskEngine

/-- `Position` from risk_engine_rust/src/main.rs. -/
structure Position where
  symbol : String
  quantity : ℚ
  price : ℚ
deriving DecidableEq

/-- `RiskState` from risk_engine_rust/src/main.rs. -/
structure RiskState where
  total_exposure : ℚ
  active_positions : ℕ
  var : ℚ
  cvar : ℚ
  drawdown : ℚ
  last_update : String
deriving DecidableEq

/-- Signed sum `Σ quantity·price` over a position list (the
`positions.iter().map(|p| p.quantity * p.price).sum()` pattern). -/
def totalValue (positions : List Position) : ℚ :=
  (positions.map (fun p => p.quantity * p.price)).sum

/-- Tiered z-score ladder from `compute_var` (the `match confidence` block). -/
def z_score (confidence : ℚ) : ℚ :=
  if confidence ≥ 99/100 then 233/100
  else if confidence ≥ 95/100 then 165/100
  else 128/100

/-- `compute_var` from risk_engine_rust/src/main.rs: parametric VaR.
`0.02 = 1/50` is the fixed assumed daily volatility. -/
def compute_var (positions : List Position) (portfolio_value confidence : ℚ) : ℚ :=
  if positions = [] ∨ portfolio_value ≤ 0 then 0
  else
    z_score confidence * (1/50) * portfolio_value * (totalValue positions / portfolio_value)

/-- CVaR multiplier ladder from `compute_cvar`. -/
def cvar_multiplier (confidence : ℚ) : ℚ :=
  if confidence ≥ 99/100 then 13/10
  else if confidence ≥ 95/100 then 5/4
  else 6/5

/-- `compute_cvar` from risk_engine_rust/src/main.rs (the position/portfolio
arguments are unused in the source and omitted here). -/
def compute_cvar (var confidence : ℚ) : ℚ :=
  if var ≤ 0 then 0 else var * cvar_multiplier confidence

/-- `compute_exposure` from risk_engine_rust/src/main.rs:
`Σ |quantity·price| / portfolio_value`, 0 on non-positive portfolio value. -/
def compute_exposure (positions : List Position) (portfolio_value : ℚ) : ℚ :=
  if portfolio_value ≤ 0 then 0
  else (positions.map (fun p => |p.quantity * p.price|)).sum / portfolio_value

/-- `compute_drawdown_from_positions` from risk_engine_rust/src/main.rs:
`((pv − Σqp)/pv · 100).max(0).min(100)`, 0 on non-positive portfolio value. -/
def compute_drawdown_from_positions (positions : List Position) (portfolio_value : ℚ) : ℚ :=
  if portfolio_value > 0 then
    min (max ((portfolio_value - totalValue positions) / portfolio_value * 100) 0) 100
  else 0

/-- Request body of `/risk/evaluate` (`RiskEvaluateRequest`); the serde
default for `confidence` is 0.99 and is applied at decode time. -/
structure RiskEvaluateRequest where
  positions : List Position
  portfolio_value : ℚ
  confidence : ℚ
deriving DecidableEq

/-- Response body of `/risk/evaluate` (`RiskEvaluateResponse`). -/
structure RiskEvaluateResponse where
  value_at_risk : ℚ
  conditional_var : ℚ
  drawdown : ℚ
  exposure : ℚ
  timestamp : String
deriving DecidableEq

/-- `evaluate_risk` handler: computes the four metrics, overwrites the shared
`RiskState` under the lock, and returns the response.  The persistence write
has no effect on the in-memory state and is not modelled. -/
def evaluate_risk (req : RiskEvaluateRequest) (state : RiskState) (now : String) :
    RiskState × RiskEvaluateResponse :=
  let exposure := compute_exposure req.positions req.portfolio_value
  let drawdown := compute_drawdown_from_positions req.positions req.portfolio_value
  let var := compute_var req.positions req.portfolio_value req.confidence
  let cvar := compute_cvar var req.confidence
  ({ total_exposure := exposure
     active_positions := req.positions.length
     var := var
     cvar := cvar
     drawdown := drawdown
     last_update := now },
   { value_at_risk := var
     conditional_var := cvar
     drawdown := drawdown
     exposure := exposure
     timestamp := now })

/-- Request body of `/risk/validate` (`TradeValidationRequest`); serde
defaults: `max_drawdown = 0.08`, `current_drawdown = 0`. -/
structure TradeValidationRequest where
  symbol : String
  side : String
  quantity : ℚ
  price : ℚ
  portfolio_value : ℚ
  max_drawdown : ℚ
  current_drawdown : ℚ
deriving DecidableEq

/-- The `reason` string of a `TradeValidationResponse`, modelled structurally:
each constructor records exactly the numeric values interpolated into the
corresponding format string of the source (already scaled by 100, as the
source formats percentages). -/
inductive TradeReason where
  | drawdownExceeded (currentPct maxPct : ℚ)
  | exposureExceeded (postPct maxPct : ℚ)
  | withinLimits
deriving DecidableEq

/-- Response body of `/risk/validate` (`TradeValidationResponse`); the two
optional fields are omitted from the serialized response when `none`. -/
structure TradeValidationResponse where
  approved : Bool
  reason : TradeReason
  post_trade_exposure : Option ℚ
  projected_drawdown : Option ℚ
  timestamp : String
deriving DecidableEq

/-- The check-2 computation of `validate_trade` with `trade_value = q·p`
substituted: `(total_exposure·pv + quantity·price) / pv`, 0 on non-positive
portfolio value. -/
def post_exposure (state : RiskState) (req : TradeValidationRequest) : ℚ :=
  if req.portfolio_value > 0 then
    (state.total_exposure * req.portfolio_value + req.quantity * req.price) / req.portfolio_value
  else 0

/-- `validate_trade` handler.  `env` models `std::env::var` composed with
`parse::<f64>`: `env name = none` covers both an unset variable and a parse
failure (in the source: `.ok().and_then(|s| s.parse().ok())`), and
`.getD (3/4)` is `.unwrap_or(0.75)`.  The handler reads
`RISK_MAX_EXPOSURE` from the environment in the middle of check 2, exactly
as the source does at lines 294–297.  The returned state is the value held
by the mutex guard when it is dropped. -/
def validate_trade (req : TradeValidationRequest) (state : RiskState)
    (env : String → Option ℚ) (now : String) : RiskState × TradeValidationResponse :=
  if req.current_drawdown > req.max_drawdown then
    (state,
     { approved := false
       reason := .drawdownExceeded (req.current_drawdown * 100) (req.max_drawdown * 100)
       post_trade_exposure := none
       projected_drawdown := none
       timestamp := now })
  else
    let post_trade_exposure := post_exposure state req
    let max_exposure := (env "RISK_MAX_EXPOSURE").getD (3/4)
    if post_trade_exposure > max_exposure then
      (state,
       { approved := false
         reason := .exposureExceeded (post_trade_exposure * 100) (max_exposure * 100)
         post_trade_exposure := some post_trade_exposure
         projected_drawdown := none
         timestamp := now })
    else
      (state,
       { approved := true
         reason := .withinLimits
         post_trade_exposure := some post_trade_exposure
         projected_drawdown := some state.drawdown
         timestamp := now })

/-- `StressScenario` from risk_engine_rust/src/main.rs; the `HashMap` of
shocks is modelled as an association list (keys unique in a `HashMap`). -/
structure StressScenario where
  name : String
  shocks : List (String × ℚ)

/-- `scenario.shocks.get(&symbol).copied().unwrap_or(0.0)`. -/
def shockFor (scenario : StressScenario) (symbol : String) : ℚ :=
  (scenario.shocks.lookup symbol).getD 0

/-- One element of the stress-test response. -/
structure StressTestResult where
  name : String
  pnl : ℚ
  exposure_after : ℚ
  drawdown_after : ℚ
deriving DecidableEq

/-- Body of the per-scenario loop in `stress_test`: shocked values, pnl,
`exposure_after` and `drawdown_after` (the latter has a `.max(0.0)` floor but
no 100 cap, unlike `compute_drawdown_from_positions`). -/
def stress_one (positions : List Position) (initial_portfolio_value : ℚ)
    (scenario : StressScenario) : StressTestResult :=
  let shocked := positions.map (fun p =>
    let shock := shockFor scenario p.symbol
    let new_price := p.price * (1 + shock)
    (p.quantity * new_price, p.quantity * new_price - p.quantity * p.price))
  let total_value_after := (shocked.map Prod.fst).sum
  let scenario_pnl := (shocked.map Prod.snd).sum
  let exposure_after :=
    if initial_portfolio_value > 0 then total_value_after / initial_portfolio_value else 0
  let drawdown_after :=
    if initial_portfolio_value > 0 then
      max ((initial_portfolio_value - total_value_after) / initial_portfolio_value * 100) 0
    else 0
  { name := scenario.name
    pnl := scenario_pnl
    exposure_after := exposure_after
    drawdown_after := drawdown_after }

/-- `stress_test` handler: `initial_portfolio_value` is recomputed locally
from the positions, then each scenario is processed in input order. -/
def stress_test (positions : List Position) (scenarios : List StressScenario) :
    List StressTestResult :=
  scenarios.map (stress_one positions (totalValue positions))

end RiskEngine

namespace RiskEngineGpu

/-- Population mean of the historical returns
(`returns.iter().sum::<f64>() / returns.len()`). -/
def mcMean (returns : List ℚ) : ℚ := returns.sum / returns.length

/-- Population variance of the historical returns (divisor = count). -/
def mcVariance (returns : List ℚ) : ℚ :=
  (returns.map (fun r => (r - mcMean returns) ^ 2)).sum / returns.length

/-- The ascending-sorted list of the `iterations` simulated samples, where
`draw i` is the i-th value produced by `normal.sample(&mut rng)`.  The source
sorts with `sort_by(partial_cmp)`; any sort of rationals by `≤` yields the
same list, so `List.insertionSort` is used for its Mathlib lemma support. -/
def mcSorted (iterations : ℕ) (draw : ℕ → ℚ) : List ℚ :=
  List.insertionSort (· ≤ ·) ((List.range iterations).map draw)

/-- `monte_carlo_var` from risk_engine_rust_gpu/src/main.rs, with the random
sampling abstracted into the `draw` stream.  The source guard is
`std_dev == 0.0` with `std_dev = variance.sqrt()`; since the variance is a
mean of squares (hence ≥ 0) and `f64::sqrt` is exactly zero iff its argument
is zero, the guard is embedded as `mcVariance returns = 0`.
`var_index` is the `(… as usize)` cast of `(1−confidence)·iterations`
(truncation, saturating to 0 on negatives = `Nat.floor` on `ℚ`), and the
bounds-checked indexing `if var_index < len` is kept verbatim. -/
def monte_carlo_var (returns : List ℚ) (iterations : ℕ) (confidence : ℚ)
    (draw : ℕ → ℚ) : ℚ × ℚ :=
  if returns = [] ∨ iterations = 0 then (0, 0)
  else if mcVariance returns = 0 then (0, 0)
  else
    let sorted := mcSorted iterations draw
    let var_index := Nat.floor ((1 - confidence) * iterations)
    let var := if var_index < sorted.length then -(min (sorted.getD var_index 0) 0) else 0
    let tail := (sorted.take (var_index + 1)).filter (fun r => decide (r ≤ -var))
    let cvar := if tail ≠ [] then -tail.sum / tail.length else var * (13/10)
    (var, cvar)

/-- The raw pseudo-random stream chosen by `monte_carlo_var`:
`StdRng::seed_from_u64(s)` when a seed is supplied (a fixed function of the
seed, modelled by `seedGen`), otherwise `StdRng::from_entropy()` (the
process-nondeterministic source, modelled by `entropy`). -/
def rawStream (seedGen : ℕ → ℕ → ℚ) (entropy : ℕ → ℚ) : Option ℕ → ℕ → ℚ
  | some s => seedGen s
  | none => entropy

/-- One full run of `monte_carlo_var` including RNG construction:
`sampleAlg mean variance stream` abstracts drawing from
`Normal::new(mean, std_dev)` (with its non-positive-stddev fallback) through
the given raw stream; it is a fixed function within one implementation. -/
def monte_carlo_var_run (sampleAlg : ℚ → ℚ → (ℕ → ℚ) → ℕ → ℚ)
    (seedGen : ℕ → ℕ → ℚ) (entropy : ℕ → ℚ)
    (returns : List ℚ) (iterations : ℕ) (confidence : ℚ) (seed : Option ℕ) : ℚ × ℚ :=
  monte_carlo_var returns iterations confidence
    (sampleAlg (mcMean returns) (mcVariance returns) (rawStream seedGen entropy seed))

/-- Request body of `/risk/mc_var` (`MonteCarloVarRequest`); serde default
for `confidence` is 0.99. -/
structure MonteCarloVarRequest where
  returns : List ℚ
  iterations : ℕ
  confidence : ℚ
  seed : Option ℕ
deriving DecidableEq

/-- Response body of `/risk/mc_var` (`MonteCarloVarResponse`); the
wall-clock `runtime_ms` field is not modelled. -/
structure MonteCarloVarResponse where
  var : ℚ
  cvar : ℚ
  iterations : ℕ
  confidence : ℚ
deriving DecidableEq

/-- Outcome of the `mc_var` handler: HTTP 400 with an error message, or
HTTP 200 with a response body. -/
inductive McVarResult where
  | badRequest (msg : String)
  | ok (resp : MonteCarloVarResponse)
deriving DecidableEq

/-- `mc_var` handler from risk_engine_rust_gpu/src/main.rs:
`iterations.min(1_000_000)`, `confidence.clamp(0.5, 0.999)` (for a real
argument, `x.clamp(lo, hi) = max (min x hi) lo`), empty-returns rejection,
then the Monte Carlo engine on the clamped values; the response echoes the
clamped `iterations` and `confidence`. -/
def mc_var (req : MonteCarloVarRequest) (sampleAlg : ℚ → ℚ → (ℕ → ℚ) → ℕ → ℚ)
    (seedGen : ℕ → ℕ → ℚ) (entropy : ℕ → ℚ) : McVarResult :=
  let iterations := min req.iterations 1000000
  let confidence := max (min req.confidence (999/1000)) (1/2)
  if req.returns = [] then .badRequest "returns array cannot be empty"
  else
    let vc := monte_carlo_var_run sampleAlg seedGen entropy req.returns iterations confidence req.seed
    .ok { var := vc.1, cvar := vc.2, iterations := iterations, confidence := confidence }

end RiskEngineGpu

namespace Backtester

/-- `BacktestResult` from backtester_rust/src/main.rs.  All fields are `f64`
in the source; `win_rate` is the one field whose computation can produce a
NaN (`0.0/0.0` when `iters = 0`), so it is embedded as `Option ℚ` with
`none` standing for that NaN. -/
structure BacktestResult where
  strategy : String
  sharpe : ℚ
  max_drawdown : ℚ
  win_rate : Option ℚ
  total_return : ℚ
  trades : ℕ
deriving DecidableEq

/-- One mock per-period return: `(rng.gen::<f64>() - 0.5) * 0.02`, with
`rngU i` the i-th uniform draw of the thread-local generator. -/
def mock_return (rngU : ℕ → ℚ) (i : ℕ) : ℚ := (rngU i - 1/2) * (1/50)

/-- The mock return series of one strategy backtest. -/
def backtest_returns (iters : ℕ) (rngU : ℕ → ℚ) : List ℚ :=
  (List.range iters).map (mock_return rngU)

/-- The `max_drawdown` fold of `run_strategy_backtest`, verbatim: the state
is `(peak, max_dd)` starting from `(0,0)`, the drawdown candidate
`(peak - r).max(0.0)` uses the pre-update peak. -/
def backtestDrawdownFold (returns : List ℚ) : ℚ :=
  (returns.foldl (fun s r => (max s.1 r, max s.2 (max (s.1 - r) 0))) ((0 : ℚ), (0 : ℚ))).2

/-- `run_strategy_backtest` from backtester_rust/src/main.rs.  `fsqrt`
abstracts `f64::sqrt` (used only inside `sharpe`, whose exact value no claim
depends on); the guard `std_dev > 0.0` is embedded as `0 < variance`, which
is equivalent since the variance is a mean of squares and `f64::sqrt` of a
positive value is positive (and at `iters = 0` the f64 std_dev is NaN, for
which the guard is also false, matching `0 < 0/0 = 0` being false in `ℚ`).
`win_rate = count(r > 0) / iters` is `none` (NaN, `0.0/0.0`) at
`iters = 0`. -/
def run_strategy_backtest (strategy : String) (iters : ℕ) (rngU : ℕ → ℚ)
    (fsqrt : ℚ → ℚ) : BacktestResult :=
  let returns := backtest_returns iters rngU
  let total_return := returns.sum
  let mean_return := total_return / (returns.length : ℚ)
  let variance := (returns.map (fun r => (r - mean_return) ^ 2)).sum / (returns.length : ℚ)
  let sharpe := if 0 < variance then mean_return / fsqrt variance * fsqrt 252 else 0
  let max_drawdown := backtestDrawdownFold returns
  let win_rate : Option ℚ :=
    if returns.length = 0 then none
    else some (((returns.filter (fun r => decide (0 < r))).length : ℚ) / returns.length)
  { strategy := strategy
    sharpe := sharpe
    max_drawdown := max_drawdown
    win_rate := win_rate
    total_return := total_return
    trades := iters }

end Backtester

namespace RiskEngine

/-- The all-zero `RiskState` (the `Default` instance with a fixed timestamp),
used as a concrete state in examples. -/
def zeroState : RiskState :=
  { total_exposure := 0, active_positions := 0, var := 0, cvar := 0
    drawdown := 0, last_update := "0" }

/-- A process environment with no relevant variable set. -/
def envNone : String → Option ℚ := fun _ => none

/-- A process environment with `RISK_MAX_EXPOSURE=0.9`. -/
def envHighMax : String → Option ℚ := fun name =>
  if name = "RISK_MAX_EXPOSURE" then some (9/10) else none

/-- A process environment differing from `envNone` only on an unrelated
variable. -/
def envOtherVar : String → Option ℚ := fun name =>
  if name = "SOME_OTHER_VAR" then some 1 else none

/-- The spec's exposure example: quantity 1, price 300, portfolio 1000,
default `max_drawdown = 0.08` and `current_drawdown = 0`. -/
def exposureExampleReq : TradeValidationRequest :=
  { symbol := "BTC", side := "buy", quantity := 1, price := 300
    portfolio_value := 1000, max_drawdown := 8/100, current_drawdown := 0 }

/-- A state with `total_exposure = 0.5` (the spec's exposure example). -/
def halfExposureState : RiskState :=
  { total_exposure := 1/2, active_positions := 0, var := 0, cvar := 0
    drawdown := 0, last_update := "0" }

/-- The spec's drawdown example: `current_drawdown = 0.09` against
`max_drawdown = 0.08`. -/
def drawdownExampleReq : TradeValidationRequest :=
  { symbol := "BTC", side := "buy", quantity := 1, price := 300
    portfolio_value := 1000, max_drawdown := 8/100, current_drawdown := 9/100 }

/-- A tiny trade (value 1 against portfolio 1000) whose request nevertheless
carries `current_drawdown = 0.09 > max_drawdown = 0.08`. -/
def smallTradeHighDrawdownReq : TradeValidationRequest :=
  { symbol := "BTC", side := "buy", quantity := 1, price := 1
    portfolio_value := 1000, max_drawdown := 8/100, current_drawdown := 9/100 }

/-- A net-short single-position evaluate-risk request: one short position of
100 against a portfolio value of 1000, confidence 0.99. -/
def netShortEvaluateReq : RiskEvaluateRequest :=
  { positions := [{ symbol := "BTC", quantity := -1, price := 100 }]
    portfolio_value := 1000, confidence := 99/100 }

/-- A scenario with an empty shock map. -/
def emptyShockScenario : StressScenario := { name := "zero", shocks := [] }

/-- A one-position portfolio used in the zero-shock stress example. -/
def onePositionList : List Position := [{ symbol := "BTC", quantity := 1, price := 100 }]

end RiskEngine

namespace RiskEngine

theorem z_score_pos (c : ℚ) : 0 < z_score c := by
  unfold z_score; split_ifs <;> norm_num

theorem cvar_multiplier_pos (c : ℚ) : 0 < cvar_multiplier c := by
  unfold cvar_multiplier; split_ifs <;> norm_num

theorem compute_exposure_nonneg (ps : List Position) (pv : ℚ) :
    0 ≤ compute_exposure ps pv := by
  unfold compute_exposure
  split_ifs with h
  · exact le_refl 0
  · push_neg at h
    refine div_nonneg (List.sum_nonneg ?_) (le_of_lt h)
    intro x hx
    obtain ⟨p, -, rfl⟩ := List.mem_map.1 hx
    exact abs_nonneg _

theorem compute_drawdown_from_positions_nonneg (ps : List Position) (pv : ℚ) :
    0 ≤ compute_drawdown_from_positions ps pv := by
  unfold compute_drawdown_from_positions
  split_ifs with h
  · exact le_min (le_max_right _ _) (by norm_num)
  · exact le_refl 0

theorem compute_drawdown_from_positions_le_100 (ps : List Position) (pv : ℚ) :
    compute_drawdown_from_positions ps pv ≤ 100 := by
  unfold compute_drawdown_from_positions
  split_ifs with h
  · exact min_le_right _ _
  · norm_num

theorem compute_cvar_nonneg (var c : ℚ) : 0 ≤ compute_cvar var c := by
  unfold compute_cvar
  split_ifs with h
  · exact le_refl 0
  · push_neg at h
    exact le_of_lt (mul_pos h (cvar_multiplier_pos c))

theorem compute_var_nonneg_of_nonneg_value (ps : List Position) (pv c : ℚ)
    (h : 0 ≤ totalValue ps) : 0 ≤ compute_var ps pv c := by
  unfold compute_var
  split_ifs with hc
  · exact le_refl 0
  · push_neg at hc
    have hpv : 0 < pv := hc.2
    exact mul_nonneg
      (mul_nonneg (mul_nonneg (le_of_lt (z_score_pos c)) (by norm_num)) (le_of_lt hpv))
      (div_nonneg h (le_of_lt hpv))

/-- C1 (amended): every evaluate-risk call returns and stores
`exposure ≥ 0`, `0 ≤ drawdown ≤ 100` and `conditional_var ≥ 0`, and the
stored metrics equal the returned ones; `value_at_risk` is nonnegative
whenever the signed position value `Σ quantity·price` is nonnegative, but
for a net-short position set with positive portfolio value it is negative
(see the counterexample). -/
theorem evaluate_risk_metric_bounds (req : RiskEvaluateRequest) (state : RiskState)
    (now : String) :
    0 ≤ ((evaluate_risk req state now).2).exposure ∧
    0 ≤ ((evaluate_risk req state now).2).drawdown ∧
    ((evaluate_risk req state now).2).drawdown ≤ 100 ∧
    0 ≤ ((evaluate_risk req state now).2).conditional_var ∧
    (0 ≤ totalValue req.positions → 0 ≤ ((evaluate_risk req state now).2).value_at_risk) ∧
    ((evaluate_risk req state now).1).total_exposure = ((evaluate_risk req state now).2).exposure ∧
    ((evaluate_risk req state now).1).var = ((evaluate_risk req state now).2).value_at_risk ∧
    ((evaluate_risk req state now).1).cvar = ((evaluate_risk req state now).2).conditional_var ∧
    ((evaluate_risk req state now).1).drawdown = ((evaluate_risk req state now).2).drawdown :=
  ⟨compute_exposure_nonneg req.positions req.portfolio_value,
   compute_drawdown_from_positions_nonneg req.positions req.portfolio_value,
   compute_drawdown_from_positions_le_100 req.positions req.portfolio_value,
   compute_cvar_nonneg _ req.confidence,
   fun h => compute_var_nonneg_of_nonneg_value req.positions req.portfolio_value req.confidence h,
   rfl, rfl, rfl, rfl⟩

/-- C1 counterexample: a single short position (quantity −1, price 100)
against portfolio value 1000 at confidence 0.99 yields
`value_at_risk = 2.33·0.02·1000·(−0.1) = −4.66 < 0`, refuting the claimed
nonnegativity of VaR for net-short position sets. -/
theorem evaluate_risk_negative_var_example :
    ((evaluate_risk netShortEvaluateReq zeroState "t").2).value_at_risk < 0 := by
  norm_num [evaluate_risk, netShortEvaluateReq, zeroState, compute_var, totalValue, z_score]

/-- C9: trade validation is read-only on the shared state: the `RiskState`
value after the call equals the snapshot before it, in every field. -/
theorem validate_trade_state_unchanged (req : TradeValidationRequest) (state : RiskState)
    (env : String → Option ℚ) (now : String) :
    (validate_trade req state env now).1 = state := by
  unfold validate_trade
  dsimp only
  split_ifs <;> rfl

/-- C6: when `current_drawdown > max_drawdown` the first check rejects the
trade, the reason records both percentages, the response carries neither
`post_trade_exposure` nor `projected_drawdown`, and the outcome is
independent of every other request field, of the state and of the
environment (the exposure check is never evaluated). -/
theorem validate_trade_drawdown_short_circuit (req : TradeValidationRequest)
    (state : RiskState) (env : String → Option ℚ) (now : String)
    (h : req.current_drawdown > req.max_drawdown) :
    ((validate_trade req state env now).2).approved = false ∧
    ((validate_trade req state env now).2).reason =
      TradeReason.drawdownExceeded (req.current_drawdown * 100) (req.max_drawdown * 100) ∧
    ((validate_trade req state env now).2).post_trade_exposure = none ∧
    ((validate_trade req state env now).2).projected_drawdown = none ∧
    ∀ (req' : TradeValidationRequest) (state' : RiskState) (env' : String → Option ℚ),
      req'.current_drawdown = req.current_drawdown →
      req'.max_drawdown = req.max_drawdown →
      (validate_trade req' state' env' now).2 = (validate_trade req state env now).2 := by
  have e : (validate_trade req state env now).2 =
      { approved := false
        reason := TradeReason.drawdownExceeded (req.current_drawdown * 100) (req.max_drawdown * 100)
        post_trade_exposure := none
        projected_drawdown := none
        timestamp := now } := by
    unfold validate_trade
    rw [if_pos h]
  refine ⟨by rw [e], by rw [e], by rw [e], by rw [e], ?_⟩
  intro req' state' env' hcd hmd
  have h' : req'.current_drawdown > req'.max_drawdown := by rw [hcd, hmd]; exact h
  have e' : (validate_trade req' state' env' now).2 =
      { approved := false
        reason := TradeReason.drawdownExceeded (req'.current_drawdown * 100) (req'.max_drawdown * 100)
        post_trade_exposure := none
        projected_drawdown := none
        timestamp := now } := by
    unfold validate_trade
    rw [if_pos h']
  rw [e, e', hcd, hmd]

/-- C6 witness: `current_drawdown = 0.09` against `max_drawdown = 0.08` is
rejected with a reason citing 9% and 8%. -/
theorem validate_trade_drawdown_short_circuit_example :
    ((validate_trade drawdownExampleReq zeroState envNone "t").2).approved = false ∧
    ((validate_trade drawdownExampleReq zeroState envNone "t").2).reason =
      TradeReason.drawdownExceeded 9 8 := by
  have h := validate_trade_drawdown_short_circuit drawdownExampleReq zeroState envNone "t"
    (by norm_num [drawdownExampleReq])
  refine ⟨h.1, ?_⟩
  rw [h.2.1]
  norm_num [drawdownExampleReq]

/-- C2 (amended): when the drawdown check passes
(`current_drawdown ≤ max_drawdown`), the trade is rejected exactly when
`post_exposure` (which never signs `trade_value = quantity·price` by the
buy/sell side) exceeds the configured `max_exposure`
(`RISK_MAX_EXPOSURE`, default 0.75); the response carries
`post_trade_exposure`, and the decision is independent of `side`. -/
theorem validate_trade_exposure_gate (req : TradeValidationRequest) (state : RiskState)
    (env : String → Option ℚ) (now : String)
    (h : req.current_drawdown ≤ req.max_drawdown) :
    (((validate_trade req state env now).2).approved = false ↔
      post_exposure state req > (env "RISK_MAX_EXPOSURE").getD (3/4)) ∧
    ((validate_trade req state env now).2).post_trade_exposure =
      some (post_exposure state req) ∧
    ∀ side' : String,
      validate_trade { req with side := side' } state env now =
        validate_trade req state env now := by
  have hnot : ¬ req.current_drawdown > req.max_drawdown := not_lt.2 h
  refine ⟨?_, ?_, fun side' => rfl⟩
  · unfold validate_trade
    rw [if_neg hnot]
    dsimp only
    split_ifs with hgt
    · simp [hgt]
    · simp [hgt]
  · unfold validate_trade
    rw [if_neg hnot]
    dsimp only
    split_ifs <;> rfl

/-- C2 witness: the spec example `total_exposure = 0.5`,
`portfolio_value = 1000`, `quantity = 1`, `price = 300` gives
`post_trade_exposure = 0.8` and is rejected under the default 0.75. -/
theorem validate_trade_exposure_gate_example :
    ((validate_trade exposureExampleReq halfExposureState envNone "t").2).approved = false ∧
    ((validate_trade exposureExampleReq halfExposureState envNone "t").2).post_trade_exposure =
      some (4/5) := by
  have h := validate_trade_exposure_gate exposureExampleReq halfExposureState envNone "t"
    (by norm_num [exposureExampleReq])
  refine ⟨h.1.mpr (by norm_num [post_exposure, exposureExampleReq, halfExposureState, envNone]), ?_⟩
  rw [h.2.1]
  norm_num [post_exposure, exposureExampleReq, halfExposureState]

/-- C2 counterexample: a request whose drawdown check fails
(`current_drawdown = 0.09 > 0.08`) is rejected even though its
`post_exposure` (0.001) does not exceed the default 0.75, refuting
"rejected exactly when the exposure threshold is exceeded" over all
requests. -/
theorem validate_trade_rejection_without_exposure_breach :
    ((validate_trade smallTradeHighDrawdownReq zeroState envNone "t").2).approved = false ∧
    ¬ post_exposure zeroState smallTradeHighDrawdownReq > (3/4 : ℚ) := by
  constructor
  · norm_num [validate_trade, smallTradeHighDrawdownReq]
  · norm_num [post_exposure, smallTradeHighDrawdownReq, zeroState]

/-- C4 (amended): the trade decision is a pure function of the request, the
state snapshot and the value of the `RISK_MAX_EXPOSURE` environment
variable read inside the computation: two runs whose environments agree on
that one variable produce identical responses. -/
theorem validate_trade_env_agreement (req : TradeValidationRequest) (state : RiskState)
    (env1 env2 : String → Option ℚ) (now : String)
    (h : env1 "RISK_MAX_EXPOSURE" = env2 "RISK_MAX_EXPOSURE") :
    validate_trade req state env1 now = validate_trade req state env2 now := by
  unfold validate_trade
  rw [h]

/-- C4 witness: two environments that differ on an unrelated variable but
agree on `RISK_MAX_EXPOSURE` (both unset) give identical responses. -/
theorem validate_trade_env_agreement_example :
    validate_trade exposureExampleReq halfExposureState envNone "t" =
      validate_trade exposureExampleReq halfExposureState envOtherVar "t" :=
  validate_trade_env_agreement exposureExampleReq halfExposureState envNone envOtherVar "t"
    (by simp [envNone, envOtherVar])

/-- C4 counterexample: with identical request and identical state, an
environment with `RISK_MAX_EXPOSURE` unset rejects the spec-example trade
(0.8 > 0.75) while an environment with `RISK_MAX_EXPOSURE=0.9` approves it:
the core does perform its own environment lookup inside `validate_trade`,
so the decision is not environment-noninterferent. -/
theorem validate_trade_env_sensitivity :
    ((validate_trade exposureExampleReq halfExposureState envNone "t").2).approved = false ∧
    ((validate_trade exposureExampleReq halfExposureState envHighMax "t").2).approved = true := by
  constructor
  · norm_num [validate_trade, post_exposure, exposureExampleReq, halfExposureState, envNone]
  · norm_num [validate_trade, post_exposure, exposureExampleReq, halfExposureState, envHighMax]

end RiskEngine

namespace RiskEngine

theorem sum_map_zero {α : Type} (l : List α) : (l.map fun _ => (0 : ℚ)).sum = 0 := by
  induction l with
  | nil => rfl
  | cons a t ih => simp [ih]

theorem stress_one_zero_shock (positions : List Position) (scen : StressScenario)
    (h : ∀ p ∈ positions, shockFor scen p.symbol = 0) :
    stress_one positions (totalValue positions) scen =
      { name := scen.name
        pnl := 0
        exposure_after := if 0 < totalValue positions then 1 else 0
        drawdown_after := 0 } := by
  have hmap : (positions.map fun p =>
        (p.quantity * (p.price * (1 + shockFor scen p.symbol)),
         p.quantity * (p.price * (1 + shockFor scen p.symbol)) - p.quantity * p.price)) =
      positions.map (fun p => (p.quantity * p.price, 0)) := by
    apply List.map_congr_left
    intro p hp
    rw [h p hp]
    simp
  have hfst : ((positions.map (fun p => (p.quantity * p.price, (0 : ℚ)))).map Prod.fst).sum =
      totalValue positions := by
    simp only [List.map_map]
    rfl
  have hsnd : ((positions.map (fun p => (p.quantity * p.price, (0 : ℚ)))).map Prod.snd).sum =
      0 := by
    simp only [List.map_map]
    exact sum_map_zero positions
  unfold stress_one
  dsimp only
  rw [hmap, hfst, hsnd]
  rcases lt_or_le 0 (totalValue positions) with hpos | hle
  · have hne : totalValue positions ≠ 0 := ne_of_gt hpos
    simp [hpos, div_self hne]
  · have hnot : ¬ 0 < totalValue positions := not_lt.2 hle
    simp [hnot]

/-- C7 (amended): a scenario whose shock is 0 or absent for every held
symbol leaves `pnl = 0` and `drawdown_after = 0`, and gives
`exposure_after = 1` when the locally computed initial portfolio value
`Σ quantity·price` is positive; when that value is ≤ 0 (e.g. an empty
position set) the code returns `exposure_after = 0`, not the 1.0 the spec
states unconditionally. -/
theorem stress_test_zero_shock (positions : List Position) (scen : StressScenario)
    (h : ∀ p ∈ positions, shockFor scen p.symbol = 0) :
    stress_test positions [scen] =
      [{ name := scen.name
         pnl := 0
         exposure_after := if 0 < totalValue positions then 1 else 0
         drawdown_after := 0 }] := by
  unfold stress_test
  rw [List.map_singleton, stress_one_zero_shock positions scen h]

/-- C7 witness: one long position (quantity 1, price 100) under a scenario
with an empty shock map produces `pnl = 0`, `exposure_after = 1`,
`drawdown_after = 0`. -/
theorem stress_test_zero_shock_example :
    stress_test onePositionList [emptyShockScenario] =
      [{ name := "zero", pnl := 0, exposure_after := 1, drawdown_after := 0 }] := by
  have h := stress_test_zero_shock onePositionList emptyShockScenario
    (by intro p hp; simp [shockFor, emptyShockScenario])
  rw [h]
  norm_num [onePositionList, emptyShockScenario, totalValue]

/-- C7 counterexample: for the empty position set and a scenario with no
shocks, the stress test returns `exposure_after = 0`, refuting the claimed
unconditional `exposure_after = 1.0`. -/
theorem stress_test_zero_shock_empty_positions :
    stress_test [] [emptyShockScenario] =
      [{ name := "zero", pnl := 0, exposure_after := 0, drawdown_after := 0 }] ∧
    (0 : ℚ) ≠ 1 := by
  constructor
  · simp [stress_test, stress_one, emptyShockScenario, totalValue]
  · norm_num

end RiskEngine

namespace RiskEngineGpu

theorem mcSorted_length (iterations : ℕ) (draw : ℕ → ℚ) :
    (mcSorted iterations draw).length = iterations := by
  unfold mcSorted
  rw [List.length_insertionSort, List.length_map, List.length_range]

/-- C3: for a non-empty returns series with non-zero sample variance, at
least one iteration and positive confidence (so that the selection index
`k = floor((1−confidence)·iterations)` is in bounds), the Monte Carlo `var`
equals `max(0, −min(sample[k], 0))` over the ascending-sorted samples, and
is 0 whenever the k-th smallest sample is nonnegative. -/
theorem monte_carlo_var_selection (returns : List ℚ) (iterations : ℕ) (confidence : ℚ)
    (draw : ℕ → ℚ) (hret : returns ≠ []) (hvar : mcVariance returns ≠ 0)
    (hiter : 1 ≤ iterations) (hconf : 0 < confidence) :
    (monte_carlo_var returns iterations confidence draw).1 =
      max 0 (-(min ((mcSorted iterations draw).getD
        (Nat.floor ((1 - confidence) * (iterations : ℚ))) 0) 0)) ∧
    (0 ≤ (mcSorted iterations draw).getD
        (Nat.floor ((1 - confidence) * (iterations : ℚ))) 0 →
      (monte_carlo_var returns iterations confidence draw).1 = 0) := by
  have hguard : ¬(returns = [] ∨ iterations = 0) := by
    push_neg
    exact ⟨hret, by omega⟩
  have hk : Nat.floor ((1 - confidence) * (iterations : ℚ)) < iterations := by
    rcases le_or_lt ((1 - confidence) * (iterations : ℚ)) 0 with h0 | h0
    · rw [Nat.floor_of_nonpos h0]
      omega
    · rw [Nat.floor_lt (le_of_lt h0)]
      have hn : (0 : ℚ) < (iterations : ℚ) := by exact_mod_cast by omega
      nlinarith
  have hvar1 : (monte_carlo_var returns iterations confidence draw).1 =
      -(min ((mcSorted iterations draw).getD
        (Nat.floor ((1 - confidence) * (iterations : ℚ))) 0) 0) := by
    unfold monte_carlo_var
    rw [if_neg hguard, if_neg hvar]
    dsimp only
    rw [if_pos (by rw [mcSorted_length]; exact hk)]
  constructor
  · rw [hvar1]
    exact (max_eq_right (by simp)).symm
  · intro hs
    rw [hvar1, min_eq_right hs, neg_zero]

/-- C3 witness: returns `[0.01, −0.01]` (variance 1/10000), 4 iterations,
confidence 0.5 and the concrete draw stream `i ↦ i − 1` (samples
−1, 0, 1, 2): the selection index is 2 and the formula holds. -/
theorem monte_carlo_var_selection_example :
    (monte_carlo_var [1/100, -1/100] 4 (1/2) (fun i => (i : ℚ) - 1)).1 =
      max 0 (-(min ((mcSorted 4 (fun i => (i : ℚ) - 1)).getD
        (Nat.floor ((1 - (1/2 : ℚ)) * ((4 : ℕ) : ℚ))) 0) 0)) ∧
    (0 ≤ (mcSorted 4 (fun i => (i : ℚ) - 1)).getD
        (Nat.floor ((1 - (1/2 : ℚ)) * ((4 : ℕ) : ℚ))) 0 →
      (monte_carlo_var [1/100, -1/100] 4 (1/2) (fun i => (i : ℚ) - 1)).1 = 0) :=
  monte_carlo_var_selection [1/100, -1/100] 4 (1/2) (fun i => (i : ℚ) - 1)
    (by simp) (by norm_num [mcVariance, mcMean]) (by norm_num) (by norm_num)

/-- C5: with a supplied seed, the Monte Carlo run is independent of the
process entropy source: two runs with identical
`(returns, iterations, confidence, seed)` under the same implementation
(`sampleAlg`, `seedGen`) return identical `(var, cvar)`. -/
theorem monte_carlo_var_seeded_deterministic
    (sampleAlg : ℚ → ℚ → (ℕ → ℚ) → ℕ → ℚ) (seedGen : ℕ → ℕ → ℚ)
    (entropy1 entropy2 : ℕ → ℚ) (returns : List ℚ) (iterations : ℕ)
    (confidence : ℚ) (seed : ℕ) :
    monte_carlo_var_run sampleAlg seedGen entropy1 returns iterations confidence (some seed) =
      monte_carlo_var_run sampleAlg seedGen entropy2 returns iterations confidence (some seed) :=
  rfl

/-- C10: for any request with non-empty returns, the `mc_var` boundary
clamps instead of rejecting: iterations above 1,000,000 become exactly
1,000,000, confidence is clamped into [0.5, 0.999] (a confidence below 0.5
is computed at exactly 0.5), the Monte Carlo engine runs on the clamped
values, and the response echoes the clamped values. -/
theorem mc_var_clamps (req : MonteCarloVarRequest)
    (sampleAlg : ℚ → ℚ → (ℕ → ℚ) → ℕ → ℚ) (seedGen : ℕ → ℕ → ℚ) (entropy : ℕ → ℚ)
    (h : req.returns ≠ []) :
    mc_var req sampleAlg seedGen entropy = McVarResult.ok
      { var := (monte_carlo_var_run sampleAlg seedGen entropy req.returns
          (min req.iterations 1000000) (max (min req.confidence (999/1000)) (1/2)) req.seed).1
        cvar := (monte_carlo_var_run sampleAlg seedGen entropy req.returns
          (min req.iterations 1000000) (max (min req.confidence (999/1000)) (1/2)) req.seed).2
        iterations := min req.iterations 1000000
        confidence := max (min req.confidence (999/1000)) (1/2) } ∧
    (1000000 < req.iterations → min req.iterations 1000000 = 1000000) ∧
    (req.confidence < 1/2 → max (min req.confidence (999/1000)) (1/2) = 1/2) ∧
    (999/1000 < req.confidence → max (min req.confidence (999/1000)) (1/2) = 999/1000) ∧
    1/2 ≤ max (min req.confidence (999/1000)) (1/2) ∧
    max (min req.confidence (999/1000)) (1/2) ≤ 999/1000 := by
  refine ⟨?_, ?_, ?_, ?_, le_max_right _ _, max_le (min_le_right _ _) (by norm_num)⟩
  · unfold mc_var
    dsimp only
    rw [if_neg h]
  · intro hgt
    exact min_eq_right (le_of_lt hgt)
  · intro hlt
    exact max_eq_right (le_trans (min_le_left _ _) (le_of_lt hlt))
  · intro hgt
    rw [min_eq_right (le_of_lt hgt)]
    exact max_eq_left (by norm_num)

/-- C10 witness: a request with 2,500,000 iterations and confidence 0.3 is
not rejected; its response echoes the clamped 1,000,000 and 0.5. -/
theorem mc_var_clamps_example :
    mc_var { returns := [1/100, -1/100], iterations := 2500000, confidence := 3/10, seed := none }
        (fun _ _ _ _ => 0) (fun _ _ => 0) (fun _ => 0) = McVarResult.ok
      { var := (monte_carlo_var_run (fun _ _ _ _ => 0) (fun _ _ => 0) (fun _ => 0)
          [1/100, -1/100] (min 2500000 1000000) (max (min (3/10 : ℚ) (999/1000)) (1/2)) none).1
        cvar := (monte_carlo_var_run (fun _ _ _ _ => 0) (fun _ _ => 0) (fun _ => 0)
          [1/100, -1/100] (min 2500000 1000000) (max (min (3/10 : ℚ) (999/1000)) (1/2)) none).2
        iterations := min 2500000 1000000
        confidence := max (min (3/10 : ℚ) (999/1000)) (1/2) } ∧
    (1000000 < 2500000 → min 2500000 1000000 = 1000000) ∧
    ((3/10 : ℚ) < 1/2 → max (min (3/10 : ℚ) (999/1000)) (1/2) = 1/2) ∧
    ((999/1000 : ℚ) < 3/10 → max (min (3/10 : ℚ) (999/1000)) (1/2) = 999/1000) ∧
    (1/2 : ℚ) ≤ max (min (3/10 : ℚ) (999/1000)) (1/2) ∧
    max (min (3/10 : ℚ) (999/1000)) (1/2) ≤ 999/1000 :=
  mc_var_clamps
    { returns := [1/100, -1/100], iterations := 2500000, confidence := 3/10, seed := none }
    (fun _ _ _ _ => 0) (fun _ _ => 0) (fun _ => 0) (by simp)

end RiskEngineGpu

namespace Backtester

/-- C8 (amended): for every strategy and every iteration count ≥ 1 the
computed `win_rate = count(return > 0) / iterations` is a rational in
[0, 1]; at iteration count 0 the code computes `0.0/0.0`, which is NaN
(modelled `none`), not a value in [0, 1] — see the counterexample. -/
theorem run_strategy_backtest_win_rate_bounds (strategy : String) (iters : ℕ)
    (rngU : ℕ → ℚ) (fsqrt : ℚ → ℚ) (h : 1 ≤ iters) :
    ∃ w : ℚ, (run_strategy_backtest strategy iters rngU fsqrt).win_rate = some w ∧
      0 ≤ w ∧ w ≤ 1 := by
  have hlen : (backtest_returns iters rngU).length = iters := by
    unfold backtest_returns
    rw [List.length_map, List.length_range]
  have hne : ¬ (backtest_returns iters rngU).length = 0 := by omega
  refine ⟨(((backtest_returns iters rngU).filter (fun r => decide (0 < r))).length : ℚ) /
    ((backtest_returns iters rngU).length : ℚ), ?_, ?_, ?_⟩
  · unfold run_strategy_backtest
    dsimp only
    rw [if_neg hne]
  · positivity
  · rw [div_le_one (by exact_mod_cast by omega)]
    exact_mod_cast List.length_filter_le _ _

/-- C8 witness: three iterations with concrete uniform draws produce a
win_rate in [0, 1]. -/
theorem run_strategy_backtest_win_rate_example :
    ∃ w : ℚ, (run_strategy_backtest "momentum" 3 (fun i => (i : ℚ)) (fun q => q)).win_rate =
      some w ∧ 0 ≤ w ∧ w ≤ 1 :=
  run_strategy_backtest_win_rate_bounds "momentum" 3 (fun i => (i : ℚ)) (fun q => q)
    (by norm_num)

/-- C8 counterexample: at iteration count 0 the division `0.0/0.0` yields
NaN (`none` in the embedding), so the computed win_rate is not a value in
[0, 1], refuting the claim for iteration count 0. -/
theorem run_strategy_backtest_win_rate_zero_iters :
    ¬ ∃ w : ℚ, (run_strategy_backtest "momentum" 0 (fun _ => 0) (fun q => q)).win_rate =
      some w ∧ 0 ≤ w ∧ w ≤ 1 := by
  rintro ⟨w, hw, -, -⟩
  simp [run_strategy_backtest, backtest_returns] at hw

end Backtester
